import Mathlib

/-!
Shallow embedding of the baton-airbyte connector core: the resource
builders of `pkg/connector/organizations.go` (organization, workspace and
user syncers), and the Airbyte API client of `pkg/airbyte` (token
lifecycle, pagination, URL offset extraction).  External collaborators
(the HTTP transport, the remote endpoints, base64 decoding and JSON
parsing from the Go standard library) are passed in as explicit function
parameters, so every definition is executable and the control flow of the
source is preserved verbatim.
-/

namespace Airbyte

/-! ## Data model (pkg/airbyte/models.go and baton-sdk value objects) -/

/-- Resource identifier: a resource type id together with the resource's own id
(`v2.ResourceId`). -/
structure ResourceId where
  resourceType : String
  resource : String
deriving DecidableEq, Repr

/-- Connector resource as constructed by `rs.NewResource` / `rs.NewUserResource`:
display name, resource type, id and optional parent resource id. -/
structure Resource where
  displayName : String
  resourceTypeId : String
  resourceId : String
  parentResourceId : Option ResourceId
deriving DecidableEq, Repr

/-- Grant as constructed by `grant.NewGrant(resource, permissionType, principalId)`. -/
structure Grant where
  resource : ResourceId
  entitlement : String
  principal : ResourceId
deriving DecidableEq, Repr

/-- Modelled from the spec: the resource-type declarations of the connector
(the `organizationResourceType`, `workspaceResourceType` and
`userResourceType` values) are not among the provided sources; only their
distinct `Id` strings matter to the claims, so they are fixed abstract labels
here. -/
def organizationResourceTypeId : String := "organization"

/-- Modelled from the spec: workspace resource type id label. -/
def workspaceResourceTypeId : String := "workspace"

/-- Modelled from the spec: user resource type id label. -/
def userResourceTypeId : String := "user"

/-- `airbyte.Organization`. -/
structure Organization where
  id : String
  name : String
deriving DecidableEq, Repr

/-- `airbyte.Workspace`. -/
structure Workspace where
  id : String
  organizationId : String
  name : String
deriving DecidableEq, Repr

/-- `airbyte.WorkspaceResponse` (public workspaces endpoint), restricted to the
fields read by the connector. -/
structure WorkspaceResponse where
  id : String
  name : String
deriving DecidableEq, Repr

/-- `airbyte.WorkspaceReadResponse` (private list-by-organization endpoint),
restricted to the fields read by the connector. -/
structure WorkspaceReadResponse where
  workspaceId : String
  organizationId : String
  name : String
deriving DecidableEq, Repr

/-- `airbyte.User`. -/
structure User where
  id : String
  email : String
  name : String
deriving DecidableEq, Repr

/-- `airbyte.Permission`. -/
structure Permission where
  id : String
  permissionType : String
  userID : String
  scopeID : String
  scope : String
deriving DecidableEq, Repr

/-- `airbyte.PermissionRead`. -/
structure PermissionRead where
  permissionID : String
  permissionType : String
  userID : String
  workspaceID : String
  organizationID : String
deriving DecidableEq, Repr

/-- `airbyte.WorkspaceUserAccessInfoReadResponse`. -/
structure WorkspaceUserAccessInfoReadResponse where
  userID : String
  userEmail : String
  userName : String
  workspaceID : String
  workspacePermission : Option PermissionRead
  organizationPermission : Option PermissionRead
deriving DecidableEq, Repr

/-! ## Permission type constants (pkg/connector/organizations.go) -/

def OrganizationAdmin : String := "organization_admin"
def OrganizationEditor : String := "organization_editor"
def OrganizationRunner : String := "organization_runner"
def OrganizationReader : String := "organization_reader"
def OrganizationMember : String := "organization_member"

def PublicOrganizationPermissionsTypes : List String :=
  [OrganizationAdmin, OrganizationEditor, OrganizationRunner,
   OrganizationReader, OrganizationMember]

def WorkspaceAdmin : String := "workspace_admin"
def WorkspaceEditor : String := "workspace_editor"
def WorkspaceRunner : String := "workspace_runner"
def WorkspaceReader : String := "workspace_reader"

def PublicWorkspacePermissionsTypes : List String :=
  [WorkspaceAdmin, WorkspaceEditor, WorkspaceRunner, WorkspaceReader]

/-- Go `strings.ToLower`, character-wise (`Char.toLower` agrees with Go on
the ASCII permission-type strings the connector compares). -/
def stringToLower (s : String) : String :=
  String.mk (s.data.map Char.toLower)

/-! ## Resource constructors -/

/-- `workspaceResource` of organizations.go: builds the workspace resource with
the given parent resource id. -/
def workspaceResource (workspace : Workspace) (parentResourceID : Option ResourceId) :
    Resource :=
  ⟨workspace.name, workspaceResourceTypeId, workspace.id, parentResourceID⟩

/-- `userResource` of organizations.go: the user resource keyed by user id,
displayed by email, with no parent. -/
def userResource (user : User) : Resource :=
  ⟨user.email, userResourceTypeId, user.id, none⟩

/-- `orgResource` of organizations.go. -/
def orgResource (org : Organization) : Resource :=
  ⟨org.name, organizationResourceTypeId, org.id, none⟩

/-! ## Workspace-organization resolver (workspaceBuilder.List, lines 248-320) -/

/-- Build phase map population (organizations.go lines 263-267): insert
`w.ID -> w.OrganizationId` only when the organization id is non-empty; later
inserts overwrite earlier ones, as for a Go map. -/
def buildWorkspacesWithOrgIDMap (all : List Workspace) : String → Option String :=
  all.foldl
    (fun m w =>
      if w.organizationId ≠ "" then
        fun k => if k = w.id then some w.organizationId else m k
      else m)
    (fun _ => none)

/-- Annotate phase for one workspace (organizations.go lines 288-314): look the
workspace id up in the index; attach the organization id as parent when the
entry exists and is non-empty, otherwise attach the "unknown-parent" sentinel
under the organization resource type. -/
def annotateWorkspace (workspacesWithOrgIDMap : String → Option String)
    (ws : WorkspaceResponse) : Resource :=
  match workspacesWithOrgIDMap ws.id with
  | some orgID =>
    if orgID ≠ "" then
      workspaceResource ⟨ws.id, orgID, ws.name⟩
        (some ⟨organizationResourceTypeId, orgID⟩)
    else
      workspaceResource ⟨ws.id, "", ws.name⟩
        (some ⟨organizationResourceTypeId, "unknown-parent"⟩)
  | none =>
    workspaceResource ⟨ws.id, "", ws.name⟩
      (some ⟨organizationResourceTypeId, "unknown-parent"⟩)

/-- The resource-construction loop of `workspaceBuilder.List` over one page of
the global workspace listing. -/
def processWorkspacePage (workspacesWithOrgIDMap : String → Option String)
    (page : List WorkspaceResponse) : List Resource :=
  page.map (annotateWorkspace workspacesWithOrgIDMap)

/-! ## Permission resolver (workspaceBuilder.Grants, lines 347-400) -/

/-- The fixed organization-to-workspace permission table
(organizations.go lines 358-363), as lookup in the Go map literal. -/
def orgToWorkspacePermMap (orgPermType : String) : Option String :=
  if orgPermType = "organization_admin" then some WorkspaceAdmin
  else if orgPermType = "organization_editor" then some WorkspaceEditor
  else if orgPermType = "organization_runner" then some WorkspaceRunner
  else if orgPermType = "organization_reader" then some WorkspaceReader
  else none

/-- Permission resolution for one access record (organizations.go lines
367-378): prefer the workspace permission, lower-cased; otherwise translate
the organization permission through the table; otherwise the empty string. -/
def resolveWorkspacePermissionType (userResponse : WorkspaceUserAccessInfoReadResponse) :
    String :=
  match userResponse.workspacePermission with
  | some wp => stringToLower wp.permissionType
  | none =>
    match userResponse.organizationPermission with
    | some op =>
      match orgToWorkspacePermMap (stringToLower op.permissionType) with
      | some mappedPerm => mappedPerm
      | none => ""
    | none => ""

/-- Grant emission for one access record (organizations.go lines 380-396): skip
unless the resolved type is in the workspace permission set or in the
organization permission set; otherwise emit the grant. -/
def emitWorkspaceGrant (resource : Resource)
    (userResponse : WorkspaceUserAccessInfoReadResponse) : Option Grant :=
  if resolveWorkspacePermissionType userResponse ∈ PublicWorkspacePermissionsTypes
      ∨ resolveWorkspacePermissionType userResponse ∈ PublicOrganizationPermissionsTypes then
    some ⟨⟨resource.resourceTypeId, resource.resourceId⟩,
      resolveWorkspacePermissionType userResponse,
      ⟨userResourceTypeId, userResponse.userID⟩⟩
  else none

/-- The grant loop of `workspaceBuilder.Grants`. -/
def workspaceGrants (resource : Resource)
    (userResponses : List WorkspaceUserAccessInfoReadResponse) : List Grant :=
  userResponses.filterMap (emitWorkspaceGrant resource)

/-- `orgBuilder.getOrganizationPermissionType` (organizations.go lines
153-171): the first permission scoped to this organization, lower-cased,
else the empty string. -/
def getOrganizationPermissionType (allPermissions : List Permission)
    (organizationID : String) : String :=
  match allPermissions.find?
      (fun p => p.scope == "organization" && p.scopeID == organizationID) with
  | some p => stringToLower p.permissionType
  | none => ""

/-- Grant emission for one user in `orgBuilder.Grants` (organizations.go lines
119-137): skip unless the resolved type is in the organization permission
set. -/
def emitOrganizationGrant (resource : Resource)
    (permissionsOf : String → List Permission) (user : User) : Option Grant :=
  if getOrganizationPermissionType (permissionsOf user.id) resource.resourceId
      ∈ PublicOrganizationPermissionsTypes then
    some ⟨⟨resource.resourceTypeId, resource.resourceId⟩,
      getOrganizationPermissionType (permissionsOf user.id) resource.resourceId,
      ⟨userResourceTypeId, user.id⟩⟩
  else none

/-- The grant loop of `orgBuilder.Grants`. -/
def organizationGrants (resource : Resource)
    (permissionsOf : String → List Permission) (users : List User) : List Grant :=
  users.filterMap (emitOrganizationGrant resource permissionsOf)

/-! ## Token manager (src/unnamed/part_000, `GetAccessToken` and
`ensureValidToken`)

The token-exchange HTTP call, base64url decoding (`base64.RawURLEncoding`)
and JSON unmarshalling are Go standard-library collaborators, passed in as
explicit parameters; the control flow around them is the source's.  Time is
modelled in seconds as an integer wall clock. -/

/-- `airbyte.TokenResponse`. -/
structure TokenResponse where
  accessToken : String
deriving DecidableEq, Repr

/-- `airbyte.JWTClaims`, with `expiresAt` the `exp` field in epoch seconds. -/
structure JWTClaims where
  issuer : String
  subject : String
  expiresAt : Int
  roles : List String
deriving DecidableEq, Repr

/-- The credential state of `airbyte.Client`: the stored access token and its
expiry. -/
structure Client where
  accessToken : String
  tokenExpiry : Int
deriving DecidableEq, Repr

/-- Go `strings.Split` for a single-character separator, on a character list. -/
def splitChar (sep : Char) : List Char → List (List Char)
  | [] => [[]]
  | c :: cs =>
    if c = sep then [] :: splitChar sep cs
    else
      match splitChar sep cs with
      | h :: t => (c :: h) :: t
      | [] => [[c]]

/-- Go `strings.Split(s, sep)` for a single-character separator. -/
def stringSplitChar (s : String) (sep : Char) : List String :=
  (splitChar sep s.data).map String.mk

/-- `Client.GetAccessToken` (part_000 lines 104-137): run the token exchange,
split the returned bearer token on dots, require exactly three parts, decode
the middle part and parse its claims; return the token together with the
expiry taken from the claims.  Each failure returns the distinct error of the
source. -/
def GetAccessToken (exchange : Except String TokenResponse)
    (decodeBase64URL : String → Option String)
    (parseJWTClaims : String → Option JWTClaims) : Except String (String × Int) :=
  match exchange with
  | .error e => .error e
  | .ok tokenResp =>
    if (stringSplitChar tokenResp.accessToken '.').length ≠ 3 then
      .error "invalid JWT token format"
    else
      match decodeBase64URL ((stringSplitChar tokenResp.accessToken '.').getD 1 "") with
      | none => .error "error decoding JWT claims"
      | some claimsJSON =>
        match parseJWTClaims claimsJSON with
        | none => .error "error parsing JWT claims"
        | some claims => .ok (tokenResp.accessToken, claims.expiresAt)

/-- `Client.ensureValidToken` (part_000 lines 76-90): refresh when no token is
held or `now + 30` is strictly after the stored expiry; on success store the
new token and expiry; on failure return the error with the client unchanged.
The result is the outcome, the new client state, and the number of
token-exchange calls performed. -/
def ensureValidToken (c : Client) (now : Int)
    (exchange : Except String TokenResponse)
    (decodeBase64URL : String → Option String)
    (parseJWTClaims : String → Option JWTClaims) :
    Except String Unit × Client × Nat :=
  if c.accessToken = "" ∨ now + 30 > c.tokenExpiry then
    match GetAccessToken exchange decodeBase64URL parseJWTClaims with
    | .error e => (.error e, c, 1)
    | .ok (token, expiry) => (.ok (), ⟨token, expiry⟩, 1)
  else (.ok (), c, 0)

/-! ## Explicit offset/page-size pagination
(`Client.ListWorkspacesByOrganization` and the inner loop of
`workspaceBuilder.getAllWorkspacesWithParentOrganizationID`) -/

/-- `Client.ListWorkspacesByOrganization` (part_000 lines 236-259) for a fixed
organization: the remote endpoint is the `fetch` parameter from row offsets to
pages.  A page strictly shorter than the page size reports next offset `0`;
otherwise the next offset is `rowOffset + pageSize`. -/
def ListWorkspacesByOrganization (fetch : Nat → List WorkspaceReadResponse)
    (pageSize rowOffset : Nat) : List WorkspaceReadResponse × Nat :=
  if (fetch rowOffset).length < pageSize then (fetch rowOffset, 0)
  else (fetch rowOffset, rowOffset + pageSize)

/-- Conversion applied to each fetched workspace in the build-phase loop
(organizations.go lines 433-440). -/
def toWorkspace (w : WorkspaceReadResponse) : Workspace :=
  ⟨w.workspaceId, w.organizationId, w.name⟩

/-- The inner pagination loop of `getAllWorkspacesWithParentOrganizationID`
(organizations.go lines 426-447) for one organization, with explicit fuel:
fetch a page, append it, stop when the returned next offset is `0`, otherwise
continue from that offset.  `none` means the fuel ran out before the loop
exited. -/
def workspacePagesLoop (fetch : Nat → List WorkspaceReadResponse)
    (pageSize : Nat) : Nat → Nat → Option (List Workspace)
  | 0, _ => none
  | fuel + 1, rowOffset =>
    if (ListWorkspacesByOrganization fetch pageSize rowOffset).2 = 0 then
      some ((ListWorkspacesByOrganization fetch pageSize rowOffset).1.map toWorkspace)
    else
      match workspacePagesLoop fetch pageSize fuel
          (ListWorkspacesByOrganization fetch pageSize rowOffset).2 with
      | some rest =>
        some ((ListWorkspacesByOrganization fetch pageSize rowOffset).1.map toWorkspace
          ++ rest)
      | none => none

/-! ## Offset-in-URL pagination (`GetOffsetForTheNextPageFromURL`, part_000
lines 381-397)

The function calls Go's `net/url.Parse` and `Values.Get` on the parsed raw
query.  Those standard-library collaborators are modelled concretely below:
`Parse` fails on strings containing ASCII control bytes and otherwise yields
the raw query (the part after the first question mark of the part before the
first hash); `ParseQuery`, whose per-pair errors `Query()` discards, splits on
ampersands, drops chunks containing semicolons and chunks that fail percent
or plus unescaping, and `Get` returns the first value for the key. -/

/-- Whether the string contains an ASCII control byte, after
`net/url.stringContainsCTLByte`: such strings fail `url.Parse`. -/
def containsCTLByte (s : String) : Bool :=
  s.data.any (fun c => c.toNat < 32 || c.toNat = 127)

/-- Go `strings.Cut` at the first occurrence of a character: `none` when the
character does not occur, otherwise the parts before and after it. -/
def cutList (sep : Char) : List Char → Option (List Char × List Char)
  | [] => none
  | c :: cs =>
    if c = sep then some ([], cs)
    else (cutList sep cs).map (fun p => (c :: p.1, p.2))

/-- The raw query of a URL string per `net/url.Parse`: the fragment is split
off at the first hash, then the query is everything after the first question
mark of what remains (empty when there is none). -/
def rawQueryOf (s : String) : String :=
  let beforeFragment :=
    match cutList '#' s.data with
    | some p => p.1
    | none => s.data
  match cutList '?' beforeFragment with
  | some p => String.mk p.2
  | none => ""

/-- Model of `url.Parse`, reduced to what `GetOffsetForTheNextPageFromURL`
consumes: failure on control bytes, otherwise the raw query. -/
def urlParseRawQuery (s : String) : Option String :=
  if containsCTLByte s then none else some (rawQueryOf s)

/-- Hexadecimal digit value, after `net/url.unhex`. -/
def hexDigitVal (c : Char) : Option Nat :=
  if '0' ≤ c ∧ c ≤ '9' then some (c.toNat - '0'.toNat)
  else if 'a' ≤ c ∧ c ≤ 'f' then some (c.toNat - 'a'.toNat + 10)
  else if 'A' ≤ c ∧ c ≤ 'F' then some (c.toNat - 'A'.toNat + 10)
  else none

/-- `net/url.QueryUnescape` on a character list: percent escapes decode from
two hex digits, plus decodes to space, anything else is literal; a malformed
escape fails. -/
def queryUnescapeList : List Char → Option (List Char)
  | [] => some []
  | '%' :: a :: b :: rest =>
    match hexDigitVal a, hexDigitVal b with
    | some hi, some lo =>
      (queryUnescapeList rest).map (fun t => Char.ofNat (16 * hi + lo) :: t)
    | _, _ => none
  | '%' :: _ => none
  | '+' :: rest => (queryUnescapeList rest).map (fun t => ' ' :: t)
  | c :: rest => (queryUnescapeList rest).map (fun t => c :: t)

/-- `net/url.QueryUnescape` on strings. -/
def queryUnescape (s : String) : Option String :=
  (queryUnescapeList s.data).map String.mk

/-- `net/url.ParseQuery` restricted to the successfully parsed pairs, which is
what `URL.Query()` keeps: split the raw query on ampersands; skip chunks
containing a semicolon, empty chunks, and chunks whose key or value fails
unescaping; cut each remaining chunk at its first equals sign. -/
def parseQueryPairs (query : String) : List (String × String) :=
  (stringSplitChar query '&').filterMap (fun chunk =>
    if chunk.data.contains ';' then none
    else if chunk = "" then none
    else
      let kv :=
        match cutList '=' chunk.data with
        | some p => (String.mk p.1, String.mk p.2)
        | none => (chunk, "")
      match queryUnescape kv.1, queryUnescape kv.2 with
      | some k, some v => some (k, v)
      | _, _ => none)

/-- `url.Values.Get`: the first value recorded for the key, or the empty
string. -/
def queryGet (query key : String) : String :=
  match (parseQueryPairs query).find? (fun p => p.1 == key) with
  | some p => p.2
  | none => ""

/-- `GetOffsetForTheNextPageFromURL` (part_000 lines 381-397), parameterized
by the URL parser: empty payload yields the empty string; a parse failure
yields the empty string; otherwise the `offset` query parameter, with a
missing or empty parameter yielding the empty string. -/
def GetOffsetCore (parseURL : String → Option String) (urlPayload : String) :
    String :=
  if urlPayload = "" then ""
  else
    match parseURL urlPayload with
    | none => ""
    | some rawQuery =>
      if queryGet rawQuery "offset" = "" then "" else queryGet rawQuery "offset"

/-- `GetOffsetForTheNextPageFromURL` with the concrete `net/url` model. -/
def GetOffsetForTheNextPageFromURL : String → String :=
  GetOffsetCore urlParseRawQuery

/-! ## userBuilder.List (organizations.go lines 502-531) -/

/-- `userBuilder.List`: with no parent resource id, return immediately with an
empty result and no endpoint call; otherwise list the users with access info
for the parent workspace and convert each to a user resource.  The result is
the outcome (resources and continuation token, or the wrapped error) together
with the number of endpoint calls made. -/
def userList
    (fetchUsers : String → Except String (List WorkspaceUserAccessInfoReadResponse))
    (parentResourceID : Option ResourceId) :
    Except String (List Resource × String) × Nat :=
  match parentResourceID with
  | none => (.ok ([], ""), 0)
  | some pid =>
    match fetchUsers pid.resource with
    | .error e => (.error ("airbyte-connector: failed to list users: " ++ e), 1)
    | .ok userResponses =>
      (.ok (userResponses.map
        (fun ur => userResource ⟨ur.userID, ur.userEmail, ur.userName⟩), ""), 1)

/-! ## Theorems -/

/-- Claim C1: every workspace resource produced by the processing loop of
`workspaceBuilder.List` carries a non-nil parent resource id of the
organization resource type, namely the organization id from the
workspace-to-organization index when the index holds a non-empty entry for
that workspace's id and the sentinel "unknown-parent" otherwise; no returned
workspace resource is left without a parent reference. -/
theorem c1_workspace_parent_always_set
    (idx : String → Option String) (page : List WorkspaceResponse)
    (r : Resource) (hr : r ∈ processWorkspacePage idx page) :
    r.parentResourceId ≠ none ∧
    r.parentResourceId = some ⟨organizationResourceTypeId,
      match idx r.resourceId with
      | some orgID => if orgID ≠ "" then orgID else "unknown-parent"
      | none => "unknown-parent"⟩ := by
  rcases List.mem_map.mp hr with ⟨ws, _hws, rfl⟩
  cases h : idx ws.id with
  | none =>
    simp [annotateWorkspace, workspaceResource, h]
  | some orgID =>
    by_cases ho : orgID = ""
    · subst ho
      simp [annotateWorkspace, workspaceResource, h]
    · simp [annotateWorkspace, workspaceResource, h, ho]

/-- Witness for C1 at a concrete index and page. -/
theorem c1_workspace_parent_always_set_witness :
    (annotateWorkspace (fun _ => none) ⟨"w1", "W1"⟩).parentResourceId ≠ none :=
  (c1_workspace_parent_always_set (fun _ => none) [⟨"w1", "W1"⟩]
    (annotateWorkspace (fun _ => none) ⟨"w1", "W1"⟩)
    (by simp [processWorkspacePage])).1

/-- Claim C2: in `workspaceBuilder.Grants`, for a user access record with no
workspace permission and a present organization permission, the lower-cased
organization permission type is translated by the fixed table
(organization_admin to workspace_admin, organization_editor to
workspace_editor, organization_runner to workspace_runner,
organization_reader to workspace_reader); an organization_member source, or
any type outside the table, resolves to the empty string and no grant is
emitted for that user. -/
theorem c2_org_permission_fallback
    (resource : Resource) (u : WorkspaceUserAccessInfoReadResponse)
    (op : PermissionRead)
    (hwp : u.workspacePermission = none)
    (hop : u.organizationPermission = some op) :
    (stringToLower op.permissionType = "organization_admin" →
      resolveWorkspacePermissionType u = "workspace_admin") ∧
    (stringToLower op.permissionType = "organization_editor" →
      resolveWorkspacePermissionType u = "workspace_editor") ∧
    (stringToLower op.permissionType = "organization_runner" →
      resolveWorkspacePermissionType u = "workspace_runner") ∧
    (stringToLower op.permissionType = "organization_reader" →
      resolveWorkspacePermissionType u = "workspace_reader") ∧
    (orgToWorkspacePermMap (stringToLower op.permissionType) = none →
      resolveWorkspacePermissionType u = "" ∧ emitWorkspaceGrant resource u = none) ∧
    (stringToLower op.permissionType = "organization_member" →
      resolveWorkspacePermissionType u = "" ∧ emitWorkspaceGrant resource u = none) := by
  have hres : resolveWorkspacePermissionType u =
      match orgToWorkspacePermMap (stringToLower op.permissionType) with
      | some mappedPerm => mappedPerm
      | none => "" := by
    simp [resolveWorkspacePermissionType, hwp, hop]
  have hnone : orgToWorkspacePermMap (stringToLower op.permissionType) = none →
      resolveWorkspacePermissionType u = "" ∧ emitWorkspaceGrant resource u = none := by
    intro hmiss
    have h0 : resolveWorkspacePermissionType u = "" := by rw [hres, hmiss]
    refine ⟨h0, ?_⟩
    unfold emitWorkspaceGrant
    rw [h0]
    rfl
  refine ⟨?_, ?_, ?_, ?_, hnone, ?_⟩
  · intro h; rw [hres, h]; rfl
  · intro h; rw [hres, h]; rfl
  · intro h; rw [hres, h]; rfl
  · intro h; rw [hres, h]; rfl
  · intro h
    exact hnone (by rw [h]; rfl)

/-- Witness for C2 at a concrete access record with an upper-cased
organization admin permission and no workspace permission. -/
theorem c2_org_permission_fallback_witness :
    resolveWorkspacePermissionType
      ⟨"u1", "e", "n", "w1", none, some ⟨"p1", "Organization_Admin", "u1", "", "o1"⟩⟩ =
      "workspace_admin" :=
  (c2_org_permission_fallback ⟨"W1", workspaceResourceTypeId, "w1", none⟩
    ⟨"u1", "e", "n", "w1", none, some ⟨"p1", "Organization_Admin", "u1", "", "o1"⟩⟩
    ⟨"p1", "Organization_Admin", "u1", "", "o1"⟩ rfl rfl).1 (by decide)

/-- Counterexample to claim C3 as stated: an access record whose workspace
permission carries the type "Organization_Member" passes the emission filter
of `workspaceBuilder.Grants` (which also accepts the organization permission
set), so a grant is emitted whose permission type is not a member of the
fixed workspace permission set. -/
theorem c3_counterexample :
    workspaceGrants ⟨"W1", workspaceResourceTypeId, "w1", none⟩
      [⟨"u1", "u1@x", "U1", "w1",
        some ⟨"p1", "Organization_Member", "u1", "w1", ""⟩, none⟩] =
      [⟨⟨workspaceResourceTypeId, "w1"⟩, "organization_member",
        ⟨userResourceTypeId, "u1"⟩⟩] ∧
    "organization_member" ∉ PublicWorkspacePermissionsTypes := by
  decide

/-- Claim C3 as amended: every grant emitted by `workspaceBuilder.Grants` has
a permission type in the union of the fixed workspace permission set and the
fixed organization permission set, and every grant emitted by
`orgBuilder.Grants` has a permission type in the fixed organization
permission set. -/
theorem c3_amended_grant_types
    (wsResource orgResource2 : Resource)
    (users : List WorkspaceUserAccessInfoReadResponse)
    (permissionsOf : String → List Permission) (members : List User)
    (g g2 : Grant)
    (hg : g ∈ workspaceGrants wsResource users)
    (hg2 : g2 ∈ organizationGrants orgResource2 permissionsOf members) :
    (g.entitlement ∈ PublicWorkspacePermissionsTypes ∨
      g.entitlement ∈ PublicOrganizationPermissionsTypes) ∧
    g2.entitlement ∈ PublicOrganizationPermissionsTypes := by
  constructor
  · rcases List.mem_filterMap.mp hg with ⟨u, _hu, hemit⟩
    unfold emitWorkspaceGrant at hemit
    split at hemit
    · rename_i hcond
      cases hemit
      exact hcond
    · exact absurd hemit (by simp)
  · rcases List.mem_filterMap.mp hg2 with ⟨m, _hm, hemit⟩
    unfold emitOrganizationGrant at hemit
    split at hemit
    · rename_i hcond
      cases hemit
      exact hcond
    · exact absurd hemit (by simp)

/-- Witness for the amended C3 at concrete grant lists. -/
theorem c3_amended_grant_types_witness :
    ((⟨⟨workspaceResourceTypeId, "w1"⟩, "workspace_admin",
        ⟨userResourceTypeId, "u1"⟩⟩ : Grant).entitlement
        ∈ PublicWorkspacePermissionsTypes ∨
      (⟨⟨workspaceResourceTypeId, "w1"⟩, "workspace_admin",
        ⟨userResourceTypeId, "u1"⟩⟩ : Grant).entitlement
        ∈ PublicOrganizationPermissionsTypes) ∧
    (⟨⟨organizationResourceTypeId, "o1"⟩, "organization_admin",
      ⟨userResourceTypeId, "u1"⟩⟩ : Grant).entitlement
      ∈ PublicOrganizationPermissionsTypes :=
  c3_amended_grant_types
    ⟨"W1", workspaceResourceTypeId, "w1", none⟩
    ⟨"O1", organizationResourceTypeId, "o1", none⟩
    [⟨"u1", "e", "n", "w1", some ⟨"p1", "workspace_admin", "u1", "w1", ""⟩, none⟩]
    (fun _ => [⟨"p2", "organization_admin", "u1", "o1", "organization"⟩])
    [⟨"u1", "e", "n"⟩]
    ⟨⟨workspaceResourceTypeId, "w1"⟩, "workspace_admin", ⟨userResourceTypeId, "u1"⟩⟩
    ⟨⟨organizationResourceTypeId, "o1"⟩, "organization_admin",
      ⟨userResourceTypeId, "u1"⟩⟩
    (by decide) (by decide)

/-- Claim C4: for every token-exchange result whose access token does not
split into exactly three dot-separated segments, or whose middle segment does
not decode, or whose decoded claims do not parse, `GetAccessToken` returns an
error, and `ensureValidToken` leaves the stored access token and token expiry
unchanged: no partial credential is stored on any failure path. -/
theorem c4_malformed_token_failure
    (exchange : Except String TokenResponse)
    (decodeBase64URL : String → Option String)
    (parseJWTClaims : String → Option JWTClaims)
    (tokenResp : TokenResponse)
    (hok : exchange = .ok tokenResp)
    (hmal : (stringSplitChar tokenResp.accessToken '.').length ≠ 3 ∨
      decodeBase64URL ((stringSplitChar tokenResp.accessToken '.').getD 1 "") = none ∨
      ∃ claimsJSON,
        decodeBase64URL ((stringSplitChar tokenResp.accessToken '.').getD 1 "") =
          some claimsJSON ∧ parseJWTClaims claimsJSON = none) :
    (∃ e, GetAccessToken exchange decodeBase64URL parseJWTClaims = .error e) ∧
    ∀ c now, (ensureValidToken c now exchange decodeBase64URL parseJWTClaims).2.1 = c := by
  have herr : ∃ e, GetAccessToken exchange decodeBase64URL parseJWTClaims = .error e := by
    subst hok
    show ∃ e,
      (if (stringSplitChar tokenResp.accessToken '.').length ≠ 3 then
        (Except.error "invalid JWT token format" : Except String (String × Int))
      else
        match decodeBase64URL ((stringSplitChar tokenResp.accessToken '.').getD 1 "") with
        | none => Except.error "error decoding JWT claims"
        | some claimsJSON =>
          match parseJWTClaims claimsJSON with
          | none => Except.error "error parsing JWT claims"
          | some claims => Except.ok (tokenResp.accessToken, claims.expiresAt)) =
        Except.error e
    by_cases hl : (stringSplitChar tokenResp.accessToken '.').length ≠ 3
    · rw [if_pos hl]
      exact ⟨_, rfl⟩
    · rw [if_neg hl]
      rcases hmal with h3 | hdec | ⟨claimsJSON, hcj, hparse⟩
      · exact absurd h3 hl
      · rw [hdec]
        exact ⟨_, rfl⟩
      · rw [hcj]
        show ∃ e,
          (match parseJWTClaims claimsJSON with
          | none => Except.error "error parsing JWT claims"
          | some claims => Except.ok (tokenResp.accessToken, claims.expiresAt)) =
            Except.error e
        rw [hparse]
        exact ⟨_, rfl⟩
  refine ⟨herr, ?_⟩
  intro c now
  obtain ⟨e, he⟩ := herr
  unfold ensureValidToken
  rw [he]
  split
  · rfl
  · rfl

/-- Witness for C4 at a token with a single segment and trivial decoders. -/
theorem c4_malformed_token_failure_witness :
    (∃ e, GetAccessToken (.ok ⟨"header-payload-signature"⟩)
      (fun _ => none) (fun _ => none) = .error e) ∧
    ∀ c now, (ensureValidToken c now (.ok ⟨"header-payload-signature"⟩)
      (fun _ => none) (fun _ => none)).2.1 = c :=
  c4_malformed_token_failure (.ok ⟨"header-payload-signature"⟩)
    (fun _ => none) (fun _ => none) ⟨"header-payload-signature"⟩ rfl
    (Or.inl (by decide))

/-- Counterexample to claim C5 as stated: with a held token whose stored
expiry is exactly 30 seconds after the current time — hence within 30 seconds
of it — `ensureValidToken` performs zero token-exchange calls, not exactly
one, because the refresh condition `now + 30 > expiry` is strict. -/
theorem c5_counterexample :
    (⟨"sometoken", 30⟩ : Client).accessToken ≠ "" ∧
    (⟨"sometoken", 30⟩ : Client).tokenExpiry ≤ (0 : Int) + 30 ∧
    (ensureValidToken ⟨"sometoken", 30⟩ 0 (.ok ⟨""⟩)
      (fun _ => none) (fun _ => none)).2.2 = 0 := by
  decide

/-- Claim C5 as amended: `ensureValidToken` performs no token-exchange call
when a token is held and the stored expiry is at least 30 seconds after the
current time; it performs exactly one call when no token is held or the
stored expiry is strictly less than 30 seconds after the current time, and on
success it replaces the stored token and expiry with the new values. -/
theorem c5_amended_refresh_policy (c : Client) (now : Int)
    (exchange : Except String TokenResponse)
    (decodeBase64URL : String → Option String)
    (parseJWTClaims : String → Option JWTClaims) :
    (c.accessToken ≠ "" → now + 30 ≤ c.tokenExpiry →
      ensureValidToken c now exchange decodeBase64URL parseJWTClaims =
        (.ok (), c, 0)) ∧
    ((c.accessToken = "" ∨ c.tokenExpiry < now + 30) →
      (ensureValidToken c now exchange decodeBase64URL parseJWTClaims).2.2 = 1 ∧
      ∀ token expiry,
        GetAccessToken exchange decodeBase64URL parseJWTClaims = .ok (token, expiry) →
        ensureValidToken c now exchange decodeBase64URL parseJWTClaims =
          (.ok (), ⟨token, expiry⟩, 1)) := by
  constructor
  · intro h1 h2
    unfold ensureValidToken
    rw [if_neg]
    intro hcond
    rcases hcond with h | h
    · exact h1 h
    · exact absurd h2 (not_le.mpr h)
  · intro h
    have hcond : c.accessToken = "" ∨ now + 30 > c.tokenExpiry := by
      rcases h with h | h
      · exact Or.inl h
      · exact Or.inr h
    unfold ensureValidToken
    rw [if_pos hcond]
    constructor
    · cases hga : GetAccessToken exchange decodeBase64URL parseJWTClaims with
      | error e => rfl
      | ok p => cases p; rfl
    · intro token expiry hga
      rw [hga]

/-- Witness for the amended C5: a held token expiring 100 seconds after now
is not refreshed. -/
theorem c5_amended_refresh_policy_witness :
    ensureValidToken ⟨"sometoken", 100⟩ 0 (.ok ⟨""⟩)
      (fun _ => none) (fun _ => none) =
      (.ok (), ⟨"sometoken", 100⟩, 0) :=
  (c5_amended_refresh_policy ⟨"sometoken", 100⟩ 0 (.ok ⟨""⟩)
    (fun _ => none) (fun _ => none)).1 (by decide) (by decide)

/-- A page strictly shorter than the page size yields the page with next
offset zero. -/
theorem ListWorkspacesByOrganization_short
    (fetch : Nat → List WorkspaceReadResponse) (pageSize rowOffset : Nat)
    (h : (fetch rowOffset).length < pageSize) :
    ListWorkspacesByOrganization fetch pageSize rowOffset = (fetch rowOffset, 0) := by
  unfold ListWorkspacesByOrganization
  rw [if_pos h]

/-- A full page yields the page with next offset `rowOffset + pageSize`. -/
theorem ListWorkspacesByOrganization_full
    (fetch : Nat → List WorkspaceReadResponse) (pageSize rowOffset : Nat)
    (h : ¬ (fetch rowOffset).length < pageSize) :
    ListWorkspacesByOrganization fetch pageSize rowOffset =
      (fetch rowOffset, rowOffset + pageSize) := by
  unfold ListWorkspacesByOrganization
  rw [if_neg h]

/-- The first component of a pagination step is always the fetched page. -/
theorem ListWorkspacesByOrganization_fst
    (fetch : Nat → List WorkspaceReadResponse) (pageSize rowOffset : Nat) :
    (ListWorkspacesByOrganization fetch pageSize rowOffset).1 = fetch rowOffset := by
  unfold ListWorkspacesByOrganization
  split
  · rfl
  · rfl

/-- Unfolding equation of the build-phase loop at positive fuel. -/
theorem workspacePagesLoop_succ_eq (fetch : Nat → List WorkspaceReadResponse)
    (pageSize fuel rowOffset : Nat) :
    workspacePagesLoop fetch pageSize (fuel + 1) rowOffset =
      if (ListWorkspacesByOrganization fetch pageSize rowOffset).2 = 0 then
        some ((ListWorkspacesByOrganization fetch pageSize rowOffset).1.map toWorkspace)
      else
        match workspacePagesLoop fetch pageSize fuel
            (ListWorkspacesByOrganization fetch pageSize rowOffset).2 with
        | some rest =>
          some ((ListWorkspacesByOrganization fetch pageSize rowOffset).1.map toWorkspace
            ++ rest)
        | none => none := rfl

/-- Claim C6: a page strictly shorter than the requested page size reports
next row offset `0` — the terminal sentinel — and never
`requestedOffset + pageSize`; otherwise the next row offset is
`requestedOffset + pageSize`; and the build-phase loop of
`getAllWorkspacesWithParentOrganizationID` returns the current page and stops
exactly when the returned next offset equals `0`, continuing from that offset
otherwise. -/
theorem c6_explicit_offset_pagination
    (fetch : Nat → List WorkspaceReadResponse) (pageSize rowOffset : Nat) :
    ((fetch rowOffset).length < pageSize →
      (ListWorkspacesByOrganization fetch pageSize rowOffset).2 = 0 ∧
      (ListWorkspacesByOrganization fetch pageSize rowOffset).2 ≠ rowOffset + pageSize) ∧
    (¬ (fetch rowOffset).length < pageSize →
      (ListWorkspacesByOrganization fetch pageSize rowOffset).2 = rowOffset + pageSize) ∧
    ∀ fuel,
      ((ListWorkspacesByOrganization fetch pageSize rowOffset).2 = 0 →
        workspacePagesLoop fetch pageSize (fuel + 1) rowOffset =
          some ((ListWorkspacesByOrganization fetch pageSize rowOffset).1.map toWorkspace)) ∧
      ((ListWorkspacesByOrganization fetch pageSize rowOffset).2 ≠ 0 →
        workspacePagesLoop fetch pageSize (fuel + 1) rowOffset =
          (workspacePagesLoop fetch pageSize fuel
            (ListWorkspacesByOrganization fetch pageSize rowOffset).2).map
            (fun rest =>
              (ListWorkspacesByOrganization fetch pageSize rowOffset).1.map toWorkspace
                ++ rest)) := by
  refine ⟨?_, ?_, ?_⟩
  · intro h
    rw [ListWorkspacesByOrganization_short fetch pageSize rowOffset h]
    have hps : 0 < pageSize := Nat.pos_of_ne_zero (by omega)
    exact ⟨rfl, by omega⟩
  · intro h
    rw [ListWorkspacesByOrganization_full fetch pageSize rowOffset h]
  · intro fuel
    constructor
    · intro hz
      rw [workspacePagesLoop_succ_eq, if_pos hz]
    · intro hz
      rw [workspacePagesLoop_succ_eq, if_neg hz]
      cases hrec : workspacePagesLoop fetch pageSize fuel
          (ListWorkspacesByOrganization fetch pageSize rowOffset).2 with
      | none => rfl
      | some rest => rfl

/-- Witness for C6: an empty page under page size 2 at offset 5 is terminal. -/
theorem c6_explicit_offset_pagination_witness :
    (ListWorkspacesByOrganization (fun _ => []) 2 5).2 = 0 ∧
    (ListWorkspacesByOrganization (fun _ => []) 2 5).2 ≠ 5 + 2 :=
  (c6_explicit_offset_pagination (fun _ => []) 2 5).1 (by decide)

/-- Fuel bound for the build-phase loop: once every offset from `N` on
returns a short page and the page size is positive, fuel `fuel` suffices from
offset `rowOffset` whenever `N + 1 ≤ rowOffset + fuel`. -/
theorem workspacePagesLoop_isSome_of_short_tail
    (fetch : Nat → List WorkspaceReadResponse) (pageSize N : Nat)
    (hps : 0 < pageSize)
    (hshort : ∀ k, N ≤ k → (fetch k).length < pageSize) :
    ∀ fuel rowOffset, 1 ≤ fuel → N + 1 ≤ rowOffset + fuel →
      (workspacePagesLoop fetch pageSize fuel rowOffset).isSome := by
  intro fuel
  induction fuel with
  | zero =>
    intro rowOffset h1 _
    exact absurd h1 (by omega)
  | succ n ih =>
    intro rowOffset _ hbound
    by_cases hz : (ListWorkspacesByOrganization fetch pageSize rowOffset).2 = 0
    · unfold workspacePagesLoop
      rw [if_pos hz]
      rfl
    · have hnotshort : ¬ (fetch rowOffset).length < pageSize := by
        intro hs
        apply hz
        rw [ListWorkspacesByOrganization_short fetch pageSize rowOffset hs]
      have hoffN : rowOffset < N := by
        by_contra hge
        exact hnotshort (hshort rowOffset (by omega))
      have hnext : (ListWorkspacesByOrganization fetch pageSize rowOffset).2 =
          rowOffset + pageSize := by
        rw [ListWorkspacesByOrganization_full fetch pageSize rowOffset hnotshort]
      have hn1 : 1 ≤ n := by omega
      have hrec := ih (rowOffset + pageSize) hn1 (by omega)
      unfold workspacePagesLoop
      rw [if_neg hz, hnext]
      cases hloop : workspacePagesLoop fetch pageSize n (rowOffset + pageSize) with
      | none =>
        rw [hloop] at hrec
        exact absurd hrec (by simp)
      | some rest => rfl

/-- Claim C8: with a strictly positive page size and, for the organization
at hand, pages that become strictly shorter than the page size from some
offset `N` on, the inner pagination loop of
`getAllWorkspacesWithParentOrganizationID` terminates (fuel `N + 1` suffices
from offset `0`); the returned next offset is `0` exactly on a short page;
and the loop exits exactly when the next offset equals `0`. -/
theorem c8_inner_loop_termination
    (fetch : Nat → List WorkspaceReadResponse) (pageSize N : Nat)
    (hps : 0 < pageSize)
    (hshort : ∀ k, N ≤ k → (fetch k).length < pageSize) :
    (workspacePagesLoop fetch pageSize (N + 1) 0).isSome ∧
    (∀ rowOffset, (ListWorkspacesByOrganization fetch pageSize rowOffset).2 = 0 ↔
      (fetch rowOffset).length < pageSize) ∧
    ∀ fuel rowOffset,
      ((ListWorkspacesByOrganization fetch pageSize rowOffset).2 = 0 →
        workspacePagesLoop fetch pageSize (fuel + 1) rowOffset =
          some ((fetch rowOffset).map toWorkspace)) ∧
      ((ListWorkspacesByOrganization fetch pageSize rowOffset).2 ≠ 0 →
        workspacePagesLoop fetch pageSize (fuel + 1) rowOffset =
          (workspacePagesLoop fetch pageSize fuel
            (ListWorkspacesByOrganization fetch pageSize rowOffset).2).map
            (fun rest => (fetch rowOffset).map toWorkspace ++ rest)) := by
  refine ⟨?_, ?_, ?_⟩
  · exact workspacePagesLoop_isSome_of_short_tail fetch pageSize N hps hshort
      (N + 1) 0 (by omega) (by omega)
  · intro rowOffset
    constructor
    · intro hz
      by_contra hnotshort
      rw [ListWorkspacesByOrganization_full fetch pageSize rowOffset hnotshort] at hz
      omega
    · intro hs
      rw [ListWorkspacesByOrganization_short fetch pageSize rowOffset hs]
  · intro fuel rowOffset
    constructor
    · intro hz
      rw [workspacePagesLoop_succ_eq, if_pos hz, ListWorkspacesByOrganization_fst]
    · intro hz
      rw [workspacePagesLoop_succ_eq, if_neg hz, ListWorkspacesByOrganization_fst]
      cases hrec : workspacePagesLoop fetch pageSize fuel
          (ListWorkspacesByOrganization fetch pageSize rowOffset).2 with
      | none => rfl
      | some rest => rfl

/-- Witness for C8: a fetch that always returns the empty page under page
size 1 terminates with fuel 1. -/
theorem c8_inner_loop_termination_witness :
    (workspacePagesLoop (fun _ => []) 1 (0 + 1) 0).isSome :=
  (c8_inner_loop_termination (fun _ => []) 1 0 (by decide)
    (fun k _ => by simp)).1

/-- Claim C7: for every next-link URL string that parses and carries a
non-empty `offset` query parameter, `GetOffsetForTheNextPageFromURL` returns
that parameter's value; in particular it returns "10" for the next link
`".../workspaces?limit=10&offset=10"`; and for an empty next-link string it
returns the empty string, which callers read as the end of the sequence. -/
theorem c7_offset_in_url_extraction
    (s rawQuery v : String)
    (hs : s ≠ "") (hp : urlParseRawQuery s = some rawQuery)
    (hv : queryGet rawQuery "offset" = v) (hv0 : v ≠ "") :
    GetOffsetForTheNextPageFromURL s = v ∧
    GetOffsetForTheNextPageFromURL
      "https://api.airbyte.com/v1/workspaces?limit=10&offset=10" = "10" ∧
    GetOffsetForTheNextPageFromURL "" = "" := by
  refine ⟨?_, by decide, rfl⟩
  show GetOffsetCore urlParseRawQuery s = v
  unfold GetOffsetCore
  rw [if_neg hs, hp]
  show (if queryGet rawQuery "offset" = "" then "" else queryGet rawQuery "offset") = v
  rw [hv, if_neg hv0]

/-- Witness for C7 at the documented next link. -/
theorem c7_offset_in_url_extraction_witness :
    GetOffsetForTheNextPageFromURL
      "https://api.airbyte.com/v1/workspaces?limit=10&offset=10" = "10" :=
  (c7_offset_in_url_extraction
    "https://api.airbyte.com/v1/workspaces?limit=10&offset=10"
    "limit=10&offset=10" "10"
    (by decide) (by decide) (by decide) (by decide)).1

/-- Claim C9: the offset extractor is a total function on strings that never
signals an error: a payload that fails URL parsing, or parses to a query
without a (non-empty) `offset` parameter, yields the empty string — silently
ending the paginated sequence — whatever the parser does. -/
theorem c9_get_offset_total_silent
    (parseURL : String → Option String) (s : String) :
    (parseURL s = none → GetOffsetCore parseURL s = "") ∧
    (∀ rawQuery, parseURL s = some rawQuery → queryGet rawQuery "offset" = "" →
      GetOffsetCore parseURL s = "") ∧
    (urlParseRawQuery s = none → GetOffsetForTheNextPageFromURL s = "") ∧
    GetOffsetCore parseURL "" = "" := by
  refine ⟨?_, ?_, ?_, rfl⟩
  · intro hp
    unfold GetOffsetCore
    by_cases hs : s = ""
    · rw [if_pos hs]
    · rw [if_neg hs, hp]
  · intro rawQuery hp hq
    unfold GetOffsetCore
    by_cases hs : s = ""
    · rw [if_pos hs]
    · rw [if_neg hs, hp]
      show (if queryGet rawQuery "offset" = "" then "" else queryGet rawQuery "offset") = ""
      rw [if_pos hq]
  · intro hp
    show GetOffsetCore urlParseRawQuery s = ""
    unfold GetOffsetCore
    by_cases hs : s = ""
    · rw [if_pos hs]
    · rw [if_neg hs, hp]

/-- Witness for C9: a parser that fails on everything makes the extractor
return the empty string. -/
theorem c9_get_offset_total_silent_witness :
    GetOffsetCore (fun _ => none) "x" = "" :=
  (c9_get_offset_total_silent (fun _ => none) "x").1 rfl

/-- Claim C10: `userBuilder.List` with a nil parent resource id returns an
empty resource list, an empty continuation token and no error, performing
zero endpoint calls; user resources are produced only under a supplied
workspace parent. -/
theorem c10_user_list_nil_parent
    (fetchUsers : String → Except String (List WorkspaceUserAccessInfoReadResponse)) :
    userList fetchUsers none = (Except.ok ([], ""), 0) := rfl

end Airbyte
